import Mathlib

/-!
Shallow embedding of `src/src-tauri/src/lib.rs` (a Tauri application
shell).

The repository consists of two items:
* `greet`, a Tauri command that formats a greeting string with the
  Rust format macro applied to the template
  `Hello, <slot>! You have been greeted from Rust!` (the slot is the
  single positional argument `name`, and the literal suffix spells
  the contraction of `You have` with U+0027);
* `run`, the bootstrap registering three plugins and the `greet`
  invoke handler, then running the event loop and calling `expect`
  on the result.

Rust string values are modelled as Lean `String`; the format macro is
modelled by an explicit piece interpreter so that the literal and
argument structure of the template is kept.
-/

namespace MetaLayer

/-- One piece of a Rust format template: either a literal chunk or a
positional argument slot (the template of `greet` has no named or
specially formatted slots). -/
inductive FmtPiece where
  | lit (s : String)
  | arg
deriving DecidableEq, Repr

/-- Interpreter for a format template: literal chunks are emitted
verbatim, each argument slot consumes the next argument string. -/
def runFormat : List FmtPiece → List String → String
  | [], _ => ""
  | FmtPiece.lit s :: ps, args => s ++ runFormat ps args
  | FmtPiece.arg :: ps, a :: args => a ++ runFormat ps args
  | FmtPiece.arg :: ps, [] => runFormat ps []

/-- The template of the format call in `greet`: a literal head, one
argument slot, a literal tail. -/
def greetTemplate : List FmtPiece :=
  [FmtPiece.lit "Hello, ", FmtPiece.arg,
   FmtPiece.lit "! You\x27ve been greeted from Rust!"]

/-- Embedding of `fn greet(name: &str) -> String`
(`src/src-tauri/src/lib.rs`, lines 2 to 5). -/
def greet (name : String) : String :=
  runFormat greetTemplate [name]

/-- A Tauri command whose Rust return type is `String` (not `Result`)
always responds with a success value; the generated wrapper never
produces an error. `greetCommand` is that wrapper for `greet`. -/
def greetCommand (name : String) : Except String String :=
  Except.ok (greet name)

/-- Invocation of `greet` through the host, threaded through an
arbitrary ambient state `σ`: the body of `greet` reads only its `name`
parameter and performs no mutation, so the state passes through
unchanged. -/
def greetInvoke {σ : Type} (st : σ) (name : String) : String × σ :=
  (greet name, st)

/-- Command names registered by the generated handler on line 15 of
`src/src-tauri/src/lib.rs`: the macro argument list is exactly
`greet`. -/
def registeredCommands : List String := ["greet"]

/-- Dispatcher generated by the handler macro: an invocation carries a
command name and named arguments; only the name `greet` is dispatched,
and its single argument is looked up under the key `name`. Unknown
commands and a missing `name` argument yield no value. -/
def invokeHandler (cmd : String) (args : List (String × String)) :
    Option String :=
  if cmd = "greet" then
    match args.lookup "name" with
    | some v => some (greet v)
    | none => none
  else none

/-- Steps performed by the builder chain in `run`
(`src/src-tauri/src/lib.rs`, lines 9 to 16), in source order. -/
inductive SetupStep where
  | plugin (name : String)
  | commandTable (cmds : List String)
  | runLoop
deriving DecidableEq, Repr

/-- The builder chain of `run`: three plugin registrations (shell,
http, opener), then the invoke handler, then the blocking run call. -/
def buildSteps : List SetupStep :=
  [SetupStep.plugin "shell", SetupStep.plugin "http",
   SetupStep.plugin "opener", SetupStep.commandTable registeredCommands,
   SetupStep.runLoop]

/-- Outcome of the bootstrap: either the event loop is entered and the
call blocks, or the process terminates fatally. -/
inductive RunOutcome where
  | blockedInEventLoop
  | fatal (msg : String)
deriving DecidableEq, Repr

/-- Embedding of `pub fn run()` (`src/src-tauri/src/lib.rs`, lines 8
to 18): the result of the builder run call — produced by the external
Tauri runtime and therefore taken here as a parameter — is passed to
`expect`, which on an error aborts the process with the message
`error while running tauri application` and the error value. -/
def run (buildResult : Except String Unit) : RunOutcome :=
  match buildResult with
  | Except.ok _ => RunOutcome.blockedInEventLoop
  | Except.error e =>
      RunOutcome.fatal ("error while running tauri application: " ++ e)

/-- The names of the plugin registrations in `buildSteps`, in order. -/
def pluginNames : List String :=
  buildSteps.filterMap fun s =>
    match s with
    | SetupStep.plugin n => some n
    | _ => none

/-- Unfolding of `greet` to the head, the verbatim argument and the
tail. -/
theorem greet_eq (s : String) :
    greet s = "Hello, " ++ s ++ "! You\x27ve been greeted from Rust!" := by
  show "Hello, " ++ (s ++ ("! You\x27ve been greeted from Rust!" ++ "")) =
    "Hello, " ++ s ++ "! You\x27ve been greeted from Rust!"
  rw [String.append_empty, String.append_assoc]

/-- Byte size of the interpreter state list, additively over list
append. -/
theorem utf8ByteSizeGo_append (l1 l2 : List Char) :
    String.utf8ByteSize.go (l1 ++ l2) =
      String.utf8ByteSize.go l1 + String.utf8ByteSize.go l2 := by
  induction l1 with
  | nil => simp [String.utf8ByteSize.go]
  | cons c cs ih => simp [String.utf8ByteSize.go, ih]; omega

/-- Computation of the byte size through the underlying character
list. -/
theorem utf8ByteSize_eq_go (s : String) :
    s.utf8ByteSize = String.utf8ByteSize.go s.data := by
  cases s; rfl

/-- Byte size distributes over string append. -/
theorem utf8ByteSize_append (a b : String) :
    (a ++ b).utf8ByteSize = a.utf8ByteSize + b.utf8ByteSize := by
  rw [utf8ByteSize_eq_go, utf8ByteSize_eq_go, utf8ByteSize_eq_go,
    String.data_append, utf8ByteSizeGo_append]

/-- C1: for every text input `s`, including the empty string and
strings with special or control characters, `greet s` is exactly the
head `Hello, `, then `s` verbatim, then the fixed tail. -/
theorem c1_greet_formats_template (s : String) :
    greet s = "Hello, " ++ s ++ "! You\x27ve been greeted from Rust!" :=
  greet_eq s

/-- C2: the greet command is total: for every input the generated
wrapper responds with a success value; there is no failure path. -/
theorem c2_greet_total (s : String) :
    ∃ v, greetCommand s = Except.ok v :=
  ⟨greet s, rfl⟩

/-- C3: greet is deterministic and side effect free: an invocation
leaves any ambient state unchanged, and a second invocation with the
same input, run from the state left by the first, yields the identical
output. -/
theorem c3_greet_pure (σ : Type) (st : σ) (s : String) :
    (greetInvoke st s).2 = st ∧
      (greetInvoke st s).1 = (greetInvoke (greetInvoke st s).2 s).1 :=
  ⟨rfl, rfl⟩

/-- C4: greet on the empty string. -/
theorem c4_greet_empty :
    greet "" = "Hello, ! You\x27ve been greeted from Rust!" := by
  decide

/-- C5: greet on the input `<script>` passes it through unescaped, and
in general every input appears verbatim as a contiguous substring of
the output: no sanitization or escaping is performed. -/
theorem c5_greet_no_escaping :
    greet "<script>" =
        "Hello, <script>! You\x27ve been greeted from Rust!" ∧
      ∀ s : String, List.IsInfix s.data (greet s).data := by
  refine ⟨by decide, fun s => ?_⟩
  refine ⟨("Hello, " : String).data,
    ("! You\x27ve been greeted from Rust!" : String).data, ?_⟩
  rw [greet_eq, String.data_append, String.data_append]

/-- C6: the bootstrap has exactly two outcomes: either the runtime
starts and the call blocks in the event loop, or the process
terminates with a fatal error message; there is no third outcome. -/
theorem c6_run_dichotomy (r : Except String Unit) :
    run r = RunOutcome.blockedInEventLoop ∨
      ∃ m, run r = RunOutcome.fatal m := by
  cases r with
  | ok _ => exact Or.inl rfl
  | error e =>
      exact Or.inr ⟨"error while running tauri application: " ++ e, rfl⟩

/-- C7: exactly one command is registered, its name is `greet`, it
takes the single text argument `name` and returns a text value, and no
other command name is invocable. -/
theorem c7_single_command :
    registeredCommands = ["greet"] ∧
      (∀ s, invokeHandler "greet" [("name", s)] = some (greet s)) ∧
      ∀ cmd args, cmd ≠ "greet" → invokeHandler cmd args = none := by
  refine ⟨rfl, fun s => rfl, fun cmd args h => ?_⟩
  simp [invokeHandler, h]

/-- Witness for C7: the command table is exactly `greet`, and the
distinct name `copy` is not invocable. -/
theorem c7_single_command_witness :
    invokeHandler "copy" [("name", "Ada")] = none :=
  c7_single_command.2.2 "copy" [("name", "Ada")] (by decide)

/-- C9: greet is injective: distinct inputs give distinct outputs, so
the input is recoverable from the output. -/
theorem c9_greet_injective (s1 s2 : String) (h : s1 ≠ s2) :
    greet s1 ≠ greet s2 := by
  intro heq
  apply h
  rw [greet_eq, greet_eq] at heq
  have hd := congrArg String.data heq
  simp only [String.data_append] at hd
  exact String.ext (List.append_cancel_left (List.append_cancel_right hd))

/-- Witness for C9: the distinct inputs `Ada` and `Bob` give distinct
greetings. -/
theorem c9_greet_injective_witness : greet "Ada" ≠ greet "Bob" :=
  c9_greet_injective "Ada" "Bob" (by decide)

/-- C10: the output of greet is exactly 39 bytes longer than its
input (7 bytes of head plus 32 bytes of tail); in particular the
output is never empty. -/
theorem c10_greet_length (s : String) :
    (greet s).utf8ByteSize = s.utf8ByteSize + 39 ∧ greet s ≠ "" := by
  have hlen : (greet s).utf8ByteSize = s.utf8ByteSize + 39 := by
    rw [greet_eq, utf8ByteSize_append, utf8ByteSize_append]
    have h1 : ("Hello, " : String).utf8ByteSize = 7 := by decide
    have h2 :
        ("! You\x27ve been greeted from Rust!" : String).utf8ByteSize =
          32 := by decide
    rw [h1, h2]
    omega
  refine ⟨hlen, fun hempty => ?_⟩
  rw [hempty] at hlen
  have h0 : ("" : String).utf8ByteSize = 0 := by decide
  rw [h0] at hlen
  omega

/-- C8: the builder chain registers exactly the three plugins shell,
http and opener, in that order, before the command table (holding
exactly `greet`) and the final run call. -/
theorem c8_three_plugins :
    pluginNames = ["shell", "http", "opener"] ∧
      buildSteps =
        (["shell", "http", "opener"].map SetupStep.plugin) ++
          [SetupStep.commandTable ["greet"], SetupStep.runLoop] :=
  ⟨rfl, rfl⟩

end MetaLayer
